import Mathlib

/-
Verification of the topology_lib_ip library (lib/topology_lib_ip/library.py).

The Python source is shallowly embedded:
  * the regular-expression patterns used by the two output parsers are
    transcribed into a small regex AST and executed by a backtracking,
    leftmost/priority-ordered matcher (fuel-bounded structural recursion;
    the fuel bound is generous enough that it is never exhausted for the
    transcribed patterns, whose starred subexpressions all consume at
    least one character per iteration);
  * Python dictionaries are association lists with replace-or-append
    update semantics;
  * the stdlib `ipaddress` parsing functions (`ip_address`, `ip_network`,
    `ip_interface`) and the canonical rendering of addresses (`str`) are
    translated from CPython's pure-python `ipaddress` module (ASCII
    character semantics);
  * the engine node is modelled by a pure executor `exec : String → String`
    mapping a command line to its captured output, plus an explicit port
    directory; each operation returns the ordered list of command lines it
    emitted together with an `Except` outcome (`.error` models a raised
    exception; the string names the Python exception class).
-/

namespace TopologyLibIp

/-! ### Association-list dictionaries (Python `dict` with string keys) -/

def lookupKey {α : Type} : List (String × α) → String → Option α
  | [], _ => none
  | (k0, v0) :: t, k => if k0 = k then some v0 else lookupKey t k

/-- Python `d[k] = v`: replace the binding if the key exists, else append. -/
def setKey {α : Type} : List (String × α) → String → α → List (String × α)
  | [], k, v => [(k, v)]
  | (k0, v0) :: t, k, v =>
    if k0 = k then (k0, v) :: t else (k0, v0) :: setKey t k v

/-- Python `del d[k]`. -/
def delKey {α : Type} : List (String × α) → String → List (String × α)
  | [], _ => []
  | (k0, v0) :: t, k => if k0 = k then delKey t k else (k0, v0) :: delKey t k

/-- Python `d.update(new)`: `new`'s bindings overwrite/extend `d`'s. -/
def dictUpdate {α : Type} (d new : List (String × α)) : List (String × α) :=
  new.foldl (fun acc p => setKey acc p.1 p.2) d

theorem lookupKey_setKey_self {α : Type} (d : List (String × α)) (k : String) (v : α) :
    lookupKey (setKey d k v) k = some v := by
  induction d with
  | nil => simp [setKey, lookupKey]
  | cons h t ih =>
    obtain ⟨k0, v0⟩ := h
    by_cases hk : k0 = k
    · simp [setKey, lookupKey, hk]
    · simp [setKey, lookupKey, hk, ih]

theorem lookupKey_setKey_ne {α : Type} (d : List (String × α)) (k k' : String) (v : α)
    (h : k ≠ k') : lookupKey (setKey d k v) k' = lookupKey d k' := by
  induction d with
  | nil => simp [setKey, lookupKey, h]
  | cons hd t ih =>
    obtain ⟨k0, v0⟩ := hd
    by_cases hk : k0 = k
    · subst hk
      simp [setKey, lookupKey, h]
    · simp [setKey, lookupKey, hk, ih]

theorem lookupKey_delKey_self {α : Type} (d : List (String × α)) (k : String) :
    lookupKey (delKey d k) k = none := by
  induction d with
  | nil => simp [delKey, lookupKey]
  | cons hd t ih =>
    obtain ⟨k0, v0⟩ := hd
    by_cases hk : k0 = k
    · simp [delKey, hk, ih]
    · simp [delKey, lookupKey, hk, ih]

theorem lookupKey_map_val {α β : Type} (f : α → β) (d : List (String × α)) (k : String) :
    lookupKey (d.map (fun p => (p.1, f p.2))) k = (lookupKey d k).map f := by
  induction d with
  | nil => simp [lookupKey]
  | cons hd t ih =>
    obtain ⟨k0, v0⟩ := hd
    by_cases hk : k0 = k
    · simp [lookupKey, hk]
    · simp [lookupKey, hk, ih]

/-! ### A small backtracking regex engine

Models the fragment of Python `re` used by the library: literals,
character classes, concatenation, greedy/lazy `*` `+` `?` `{1,2}`, named
groups, and a fixed-width lookbehind.  Matching is leftmost (for
`re.search`) with Python's backtracking priority order; a named group
stores the last substring it matched on the overall successful path. -/

inductive RE where
  | eps : RE
  | lit : List Char → RE
  | cls : (Char → Bool) → RE
  | seq : RE → RE → RE
  | opt : Bool → RE → RE
  | star : Bool → RE → RE
  | grp : String → RE → RE
  | lookbehind : List Char → RE

abbrev Caps := List (String × String)

/-- A match result: reversed consumed prefix, remaining suffix, captures. -/
abbrev MRes := List Char × List Char × Caps

/-- Backtracking matcher in continuation-passing style.  `before` is the
reversed list of characters to the left of the current position (used by
group capture and lookbehind), `rest` the characters not yet consumed.
The continuation returns `none` to request backtracking into earlier
choice points.  The `Bool` on `opt`/`star` selects the lazy variant.
Fuel decreases at every recursion level; `reMatchAt` supplies a bound
large enough that it is never exhausted (every `star` iteration of the
patterns below consumes at least one character, which the `deeper`
progress guard also enforces, mirroring Python's empty-match rule). -/
def reRun : Nat → RE → List Char → List Char → Caps →
    (List Char → List Char → Caps → Option MRes) → Option MRes
  | 0, _, _, _, _, _ => none
  | fuel + 1, re, before, rest, caps, k =>
    match re with
    | .eps => k before rest caps
    | .lit s =>
      if rest.take s.length = s then k (s.reverse ++ before) (rest.drop s.length) caps
      else none
    | .cls p =>
      match rest with
      | [] => none
      | c :: rs => if p c then k (c :: before) rs caps else none
    | .seq a b =>
      reRun fuel a before rest caps (fun b1 r1 c1 => reRun fuel b b1 r1 c1 k)
    | .opt lz e =>
      if lz then
        match k before rest caps with
        | some r => some r
        | none => reRun fuel e before rest caps k
      else
        match reRun fuel e before rest caps k with
        | some r => some r
        | none => k before rest caps
    | .star lz e =>
      let deeper := fun b1 r1 c1 =>
        if r1.length < rest.length then reRun fuel (.star lz e) b1 r1 c1 k else none
      if lz then
        match k before rest caps with
        | some r => some r
        | none => reRun fuel e before rest caps deeper
      else
        match reRun fuel e before rest caps deeper with
        | some r => some r
        | none => k before rest caps
    | .grp n e =>
      reRun fuel e before rest caps (fun b1 r1 c1 =>
        k b1 r1 (setKey c1 n (String.mk ((b1.take (b1.length - before.length)).reverse))))
    | .lookbehind s =>
      if before.take s.length = s.reverse then k before rest caps else none

def RE.size : RE → Nat
  | .eps => 1
  | .lit _ => 1
  | .cls _ => 1
  | .seq a b => a.size + b.size + 1
  | .opt _ e => e.size + 1
  | .star _ e => e.size + 1
  | .grp _ e => e.size + 1
  | .lookbehind _ => 1

/-- Attempt an anchored match of `re` at position `p` of `input`. -/
def reMatchAt (re : RE) (input : List Char) (p : Nat) : Option MRes :=
  let rest := input.drop p
  reRun ((re.size + 2) * (input.length + 2)) re ((input.take p).reverse) rest []
    (fun b r c => some (b, r, c))

/-- Python `re.match`: anchored at the start; returns the captures. -/
def rematch (re : RE) (s : String) : Option Caps :=
  (reMatchAt re s.data 0).map (fun m => m.2.2)

def researchGo (re : RE) (input : List Char) : Nat → Nat → Option (Nat × Caps)
  | _, 0 => none
  | p, tries + 1 =>
    match reMatchAt re input p with
    | some m => some (p, m.2.2)
    | none => researchGo re input (p + 1) tries

/-- Python `re.search`: try successive start positions, leftmost match wins;
returns the match's start position and the captures. -/
def research (re : RE) (s : String) : Option (Nat × Caps) :=
  researchGo re s.data 0 (s.data.length + 1)

/-! ### Character classes (ASCII semantics of Python's `\s` `\S` `\d` `\w` `.`) -/

def pySpace (c : Char) : Bool :=
  c = ' ' || c = '\t' || c = '\n' || c = '\r' || c = '\x0b' || c = '\x0c'

def pyNonSpace (c : Char) : Bool := !pySpace c

def pyDigit (c : Char) : Bool := c.isDigit

def pyWord (c : Char) : Bool := c.isAlphanum || c = '_'

/-- Behavior of `.` under `re.DOTALL` (both patterns compiled with a dot use DOTALL). -/
def anyCh (_ : Char) : Bool := true

/-! ### Pattern combinators and the four patterns of library.py -/

def chr (c : Char) : RE := .lit [c]

def strLit (s : String) : RE := .lit s.data

/-- Greedy `e+`. -/
def plusG (e : RE) : RE := .seq e (.star false e)

/-- Lazy `e+?`. -/
def plusL (e : RE) : RE := .seq e (.star true e)

def cat (l : List RE) : RE := l.foldr .seq .eps

/-- Pattern `"(?P<dev>\S+)"\s+does not exist` (the device-not-exist marker). -/
def existRe : RE :=
  cat [chr '"', .grp "dev" (plusG (.cls pyNonSpace)), chr '"',
       plusG (.cls pySpace), strLit "does not exist"]

/-- The mandatory configuration group, searched with DOTALL:
`\s*(?P<os_index>\d+):\s+(?P<dev>\S+):\s+<(?P<falgs_str>.*)?>.*?`
`mtu\s+(?P<mtu>\d+).+?state\s+(?P<state>\w+).*\s*link/(?P<link_type>\w+)\s+(?P<mac_address>\S+)` -/
def cfgRe : RE :=
  cat [.star false (.cls pySpace),
       .grp "os_index" (plusG (.cls pyDigit)),
       chr ':',
       plusG (.cls pySpace),
       .grp "dev" (plusG (.cls pyNonSpace)),
       chr ':',
       plusG (.cls pySpace),
       chr '<',
       .opt false (.grp "falgs_str" (.star false (.cls anyCh))),
       chr '>',
       .star true (.cls anyCh),
       strLit "mtu",
       plusG (.cls pySpace),
       .grp "mtu" (plusG (.cls pyDigit)),
       plusL (.cls anyCh),
       strLit "state",
       plusG (.cls pySpace),
       .grp "state" (plusG (.cls pyWord)),
       .star false (.cls anyCh),
       .star false (.cls pySpace),
       strLit "link/",
       .grp "link_type" (plusG (.cls pyWord)),
       plusG (.cls pySpace),
       .grp "mac_address" (plusG (.cls pyNonSpace))]

/-- Pattern `((inet )\s*(?P<inet>[^/]+)/(?P<inet_mask>\d{1,2}))`; the unnamed
groups do not appear in `groupdict()` and are transparent for matching,
so they are dropped. -/
def inetRe : RE :=
  cat [strLit "inet ",
       .star false (.cls pySpace),
       .grp "inet" (plusG (.cls (fun c => !(c = '/')))),
       chr '/',
       .grp "inet_mask" (.seq (.cls pyDigit) (.opt false (.cls pyDigit)))]

/-- Pattern `((?<=inet6 )(?P<inet6>[^/]+)/(?P<inet6_mask>\d{1,2}))`. -/
def inet6Re : RE :=
  cat [.lookbehind "inet6 ".data,
       .grp "inet6" (plusG (.cls (fun c => !(c = '/')))),
       chr '/',
       .grp "inet6_mask" (.seq (.cls pyDigit) (.opt false (.cls pyDigit)))]

/-- The statistics pattern, matched (anchored) with DOTALL:
`.+?RX:.*?\n\s*(?P<rx_bytes>\d+)\s+(?P<rx_packets>\d+)\s+(?P<rx_errors>\d+)\s+`
`(?P<rx_dropped>\d+)\s+(?P<rx_overrun>\d+)\s+(?P<rx_mcast>\d+)`
`.+?TX:.*?\n\s*(?P<tx_bytes>\d+)\s+(?P<tx_packets>\d+)\s+(?P<tx_errors>\d+)\s+`
`(?P<tx_dropped>\d+)\s+(?P<tx_carrier>\d+)\s+(?P<tx_collisions>\d+)` -/
def statsRe : RE :=
  cat [plusL (.cls anyCh), strLit "RX:", .star true (.cls anyCh), chr '\n',
       .star false (.cls pySpace),
       .grp "rx_bytes" (plusG (.cls pyDigit)), plusG (.cls pySpace),
       .grp "rx_packets" (plusG (.cls pyDigit)), plusG (.cls pySpace),
       .grp "rx_errors" (plusG (.cls pyDigit)), plusG (.cls pySpace),
       .grp "rx_dropped" (plusG (.cls pyDigit)), plusG (.cls pySpace),
       .grp "rx_overrun" (plusG (.cls pyDigit)), plusG (.cls pySpace),
       .grp "rx_mcast" (plusG (.cls pyDigit)),
       plusL (.cls anyCh), strLit "TX:", .star true (.cls anyCh), chr '\n',
       .star false (.cls pySpace),
       .grp "tx_bytes" (plusG (.cls pyDigit)), plusG (.cls pySpace),
       .grp "tx_packets" (plusG (.cls pyDigit)), plusG (.cls pySpace),
       .grp "tx_errors" (plusG (.cls pyDigit)), plusG (.cls pySpace),
       .grp "tx_dropped" (plusG (.cls pyDigit)), plusG (.cls pySpace),
       .grp "tx_carrier" (plusG (.cls pyDigit)), plusG (.cls pySpace),
       .grp "tx_collisions" (plusG (.cls pyDigit))]

/-! ### Parsed records (Python dict values: `str`, `int`, or `None`) -/

inductive PVal where
  | str : String → PVal
  | int : Nat → PVal
deriving DecidableEq, Repr

/-- A parsed record: keys bound to `str`/`int` values or to `None`
(an unmatched optional group).  A key that is absent from the list is
absent from the dictionary, distinct from a key bound to `None`. -/
abbrev PRec := List (String × Option PVal)

def isdigitStr (s : String) : Bool :=
  !s.data.isEmpty && s.data.all Char.isDigit

def digitsToNat (cs : List Char) : Nat :=
  cs.foldl (fun n c => 10 * n + (c.toNat - 48)) 0

/-- Python `int(value) if value.isdigit() else value`. -/
def strToVal (s : String) : PVal :=
  if isdigitStr s then .int (digitsToNat s.data) else .str s

/-- The library's post-processing loop: convert every all-digit value to
an integer, leave `None` values and the rest untouched. -/
def cleanup (d : List (String × Option String)) : PRec :=
  d.map (fun p => (p.1, p.2.map strToVal))

/-- Python `m.groupdict()`: every named group of the pattern, bound to its last
capture or to `None` if the group did not participate in the match. -/
def groupdictOf (names : List String) (caps : Caps) : List (String × Option String) :=
  names.map (fun n => (n, lookupKey caps n))

def cfgNames : List String :=
  ["os_index", "dev", "falgs_str", "mtu", "state", "link_type", "mac_address"]

def inetNames : List String := ["inet", "inet_mask"]

def inet6Names : List String := ["inet6", "inet6_mask"]

def statsNames : List String :=
  ["rx_bytes", "rx_packets", "rx_errors", "rx_dropped", "rx_overrun", "rx_mcast",
   "tx_bytes", "tx_packets", "tx_errors", "tx_dropped", "tx_carrier", "tx_collisions"]

/-- Function `_parse_ip_addr_show`.  `.ok none` models returning `None` (the
device-not-exist marker matched); `.error` models an uncaught exception
(`.groupdict()` on a failed mandatory match raises `AttributeError`). -/
def _parse_ip_addr_show (raw : String) : Except String (Option PRec) :=
  if (research existRe raw).isSome then .ok none
  else
    match research cfgRe raw with
    | none => .error "AttributeError"
    | some (_, caps0) =>
      let result := groupdictOf cfgNames caps0
      let result :=
        match research inetRe raw with
        | some (_, caps1) => dictUpdate result (groupdictOf inetNames caps1)
        | none => result
      let result :=
        match research inet6Re raw with
        | some (_, caps2) => dictUpdate result (groupdictOf inet6Names caps2)
        | none => result
      .ok (some (cleanup result))

/-- Function `_parse_ip_stats_link_show`: anchored match; `none` models `None`. -/
def _parse_ip_stats_link_show (raw : String) : Option PRec :=
  match rematch statsRe raw with
  | none => none
  | some caps => some (cleanup (groupdictOf statsNames caps))

/-! ### The stdlib `ipaddress` module (the slice used by library.py)

Translated from CPython's pure-python `ipaddress` module of the library's
era (3.4/3.5, identical in the `py2-ipaddress` backport): dotted-quad
IPv4 with the ambiguous-octal guard, RFC-4291 IPv6 with `::` compression
and an optional embedded dotted quad, canonical `str()` rendering, and
the address/interface/network factory functions (networks parsed with
`strict=True`). -/

/-- Python `str.split(sep)` for a one-character separator (keeps empty
fields, as the address parsers require). -/
def splitOnCharGo (sep : Char) : List Char → List Char → List (List Char)
  | acc, [] => [acc.reverse]
  | acc, c :: t =>
    if c = sep then acc.reverse :: splitOnCharGo sep [] t
    else splitOnCharGo sep (c :: acc) t

def pySplit (sep : Char) (s : String) : List String :=
  (splitOnCharGo sep [] s.data).map String.mk

/-- Python `sep.join(l)`. -/
def joinSep (sep : String) : List String → String
  | [] => ""
  | [x] => x
  | x :: y :: t => x ++ sep ++ joinSep sep (y :: t)

/-- Function `_parse_octet`: 1–3 decimal digits, value ≤ 255, and a leading zero
is only allowed when the value is ≤ 7 (the ambiguous-octal guard). -/
def parseOctet (s : String) : Option Nat :=
  let cs := s.data
  if cs.isEmpty || ¬ cs.all Char.isDigit || cs.length > 3 then none
  else
    let n := digitsToNat cs
    if n > 7 ∧ cs.headD ' ' = '0' then none
    else if n > 255 then none
    else some n

/-- Function `IPv4Address._ip_int_from_string`: exactly four dot-separated octets. -/
def parseIPv4 (s : String) : Option Nat :=
  match pySplit '.' s with
  | [a, b, c, d] => do
    let oa ← parseOctet a
    let ob ← parseOctet b
    let oc ← parseOctet c
    let od ← parseOctet d
    pure (((oa * 256 + ob) * 256 + oc) * 256 + od)
  | _ => none

def isHexDigitChar (c : Char) : Bool :=
  c.isDigit || ('a' ≤ c ∧ c ≤ 'f') || ('A' ≤ c ∧ c ≤ 'F')

def hexDigitVal (c : Char) : Nat :=
  if c.isDigit then c.toNat - 48
  else if 'a' ≤ c ∧ c ≤ 'f' then c.toNat - 87
  else c.toNat - 55

/-- Function `_parse_hextet`: 1–4 hexadecimal digits. -/
def parseHextet (s : String) : Option Nat :=
  let cs := s.data
  if cs.isEmpty || ¬ cs.all isHexDigitChar || cs.length > 4 then none
  else some (cs.foldl (fun n c => 16 * n + hexDigitVal c) 0)

def foldHextets (ps : List String) (init : Nat) : Option Nat :=
  ps.foldlM (fun acc p => (parseHextet p).map (fun h => acc * 65536 + h)) init

/-- Function `IPv6Address._ip_int_from_string`: split on `:`, replace a trailing
embedded dotted quad by two hextets, locate at most one `::`, and fold
the high and low hextet groups around the skipped zero hextets. -/
def parseIPv6 (s : String) : Option Nat :=
  let parts0 := pySplit ':' s
  if parts0.length < 3 then none
  else
    let lastP := parts0.getLastD ""
    let front := parts0.dropLast
    let partsO : Option (List String) :=
      if lastP.data.any (fun c => c = '.') then
        (parseIPv4 lastP).map (fun v4 =>
          front ++ [String.mk (Nat.toDigits 16 (v4 / 65536)),
                    String.mk (Nat.toDigits 16 (v4 % 65536))])
      else some (front ++ [lastP])
    match partsO with
    | none => none
    | some parts =>
      let n := parts.length
      if n > 9 then none
      else
        let emptiesMid := (List.range n).filter
          (fun i => 0 < i ∧ i + 1 < n ∧ parts.getD i "x" = "")
        match emptiesMid with
        | [] =>
          if n ≠ 8 then none
          else if parts.getD 0 "" = "" then none
          else if parts.getD (n - 1) "" = "" then none
          else foldHextets parts 0
        | [i] =>
          let partsHi := i
          let partsLo := n - i - 1
          if parts.getD 0 "x" = "" ∧ partsHi ≠ 1 then none
          else if parts.getD (n - 1) "x" = "" ∧ partsLo ≠ 1 then none
          else
            let hiCount := if parts.getD 0 "x" = "" then 0 else partsHi
            let loCount := if parts.getD (n - 1) "x" = "" then 0 else partsLo
            if 8 ≤ hiCount + loCount then none
            else
              match foldHextets (parts.take hiCount) 0 with
              | none => none
              | some hiVal =>
                match foldHextets (parts.drop (n - loCount)) 0 with
                | none => none
                | some loVal =>
                  some (hiVal * 2 ^ (16 * (8 - hiCount)) + loVal)
        | _ => none

/-- A parsed IP address: the protocol version tag and the numeric value. -/
inductive IPAddr where
  | v4 : Nat → IPAddr
  | v6 : Nat → IPAddr
deriving DecidableEq, Repr

def IPAddr.version : IPAddr → Nat
  | .v4 _ => 4
  | .v6 _ => 6

/-- Rendering `str(IPv4Address)`: dotted decimal. -/
def ipv4Render (v : Nat) : String :=
  joinSep "."
    ([v / 16777216 % 256, v / 65536 % 256, v / 256 % 256, v % 256].map
      (fun o => String.mk (Nat.toDigits 10 o)))

/-- Function `_compress_hextets`, best run of zero hextets: `(start, length)` of
the first longest run (updates only on a strictly longer run). -/
def bestZeroRun (hx : List Nat) : Nat × Nat :=
  let st := hx.foldl
    (fun (st : Nat × Nat × Nat × Nat × Nat) h =>
      let (bs, bl, cs, cl, i) := st
      if h = 0 then
        let cs1 := if cl = 0 then i else cs
        let cl1 := cl + 1
        if cl1 > bl then (cs1, cl1, cs1, cl1, i + 1) else (bs, bl, cs1, cl1, i + 1)
      else (bs, bl, 0, 0, i + 1))
    (0, 0, 0, 0, 0)
  (st.1, st.2.1)

/-- Rendering `str(IPv6Address)`: lowercase hextets without leading zeros, with the
first longest run of two or more zero hextets compressed to `::`. -/
def ipv6Render (v : Nat) : String :=
  let hx := (List.range 8).map (fun i => v / 2 ^ (16 * (7 - i)) % 65536)
  let strs := hx.map (fun h => String.mk (Nat.toDigits 16 h))
  let (bs, bl) := bestZeroRun hx
  if bl > 1 then
    let strs1 := if bs + bl = 8 then strs ++ [""] else strs
    let replaced := strs1.take bs ++ [""] ++ strs1.drop (bs + bl)
    let strs2 := if bs = 0 then "" :: replaced else replaced
    joinSep ":" strs2
  else joinSep ":" strs

def IPAddr.render : IPAddr → String
  | .v4 v => ipv4Render v
  | .v6 v => ipv6Render v

/-- Function `ip_address(s)`: try IPv4, then IPv6; `none` models `ValueError`. -/
def ip_address (s : String) : Option IPAddr :=
  match parseIPv4 s with
  | some v => some (.v4 v)
  | none => (parseIPv6 s).map .v6

/-- A prefix length given as a decimal string, bounded by the family width. -/
def parsePrefix (s : String) (maxBits : Nat) : Option Nat :=
  let cs := s.data
  if cs.isEmpty || ¬ cs.all Char.isDigit then none
  else if digitsToNat cs ≤ maxBits then some (digitsToNat cs) else none

/-- Function `ip_interface(s)`: address with optional prefix, host bits kept. -/
def ip_interface (s : String) : Option (IPAddr × Nat) :=
  match pySplit '/' s with
  | [a] =>
    match parseIPv4 a with
    | some v => some (.v4 v, 32)
    | none => (parseIPv6 a).map (fun v => (.v6 v, 128))
  | [a, p] =>
    match parseIPv4 a, parsePrefix p 32 with
    | some v, some pl => some (.v4 v, pl)
    | _, _ =>
      match parseIPv6 a, parsePrefix p 128 with
      | some v, some pl => some (.v6 v, pl)
      | _, _ => none
  | _ => none

/-- Function `ip_network(s)` with the default `strict=True`: like `ip_interface`
but any set host bit is a `ValueError`. -/
def ip_network (s : String) : Option (IPAddr × Nat) :=
  match ip_interface s with
  | none => none
  | some (.v4 v, pl) => if v % 2 ^ (32 - pl) = 0 then some (.v4 v, pl) else none
  | some (.v6 v, pl) => if v % 2 ^ (128 - pl) = 0 then some (.v6 v, pl) else none

/-! ### The operations

The engine node is split into its two relevant facets: `ports`, the
label → device directory (`enode.ports`), and `exec : String → String`,
the command executor (`enode(cmd, shell=shell)`, whose captured output
only matters through emptiness for write operations).  Each operation
returns the ordered list of emitted command lines paired with an
`Except String` outcome naming the raised Python exception, plus — for
the VLAN operations — the updated directory. -/

abbrev Ports := List (String × String)

/-- Python `response = enode(cmd); assert not response`. -/
def runCmd (exec : String → String) (cmd : String) : Except String Unit :=
  if exec cmd = "" then .ok () else .error "AssertionError"

def addrAddCmd (addr dev : String) : String :=
  "ip addr add " ++ addr ++ " dev " ++ dev

def linkSetCmd (dev : String) (u : Bool) : String :=
  "ip link set dev " ++ dev ++ " " ++ (if u then "up" else "down")

/-- Function `interface(enode, portlbl, addr, up, shell)`. -/
def interface (ports : Ports) (portlbl : String) (addr : Option String)
    (up : Option Bool) (exec : String → String) :
    List String × Except String Unit :=
  if portlbl = "" then ([], .error "AssertionError")
  else
    match lookupKey ports portlbl with
    | none => ([], .error "KeyError")
    | some port =>
      let step1 : List String × Except String Unit :=
        match addr with
        | none => ([], .ok ())
        | some a =>
          if (ip_interface a).isSome then
            ([addrAddCmd a port], runCmd exec (addrAddCmd a port))
          else ([], .error "ValueError")
      match step1.2 with
      | .error e => (step1.1, .error e)
      | .ok _ =>
        match up with
        | none => (step1.1, .ok ())
        | some u =>
          (step1.1 ++ [linkSetCmd port u], runCmd exec (linkSetCmd port u))

/-- Function `sub_interface(enode, portlbl, subint, addr, up, shell)`; enabling the
sub-interface first recursively enables the parent interface. -/
def sub_interface (ports : Ports) (portlbl subint : String) (addr : Option String)
    (up : Option Bool) (exec : String → String) :
    List String × Except String Unit :=
  if portlbl = "" then ([], .error "AssertionError")
  else if subint = "" then ([], .error "AssertionError")
  else
    match lookupKey ports portlbl with
    | none => ([], .error "KeyError")
    | some port =>
      let dev := port ++ "." ++ subint
      let step1 : List String × Except String Unit :=
        match addr with
        | none => ([], .ok ())
        | some a =>
          if (ip_interface a).isSome then
            ([addrAddCmd a dev], runCmd exec (addrAddCmd a dev))
          else ([], .error "ValueError")
      match step1.2 with
      | .error e => (step1.1, .error e)
      | .ok _ =>
        match up with
        | none => (step1.1, .ok ())
        | some u =>
          let pre : List String × Except String Unit :=
            if u then interface ports portlbl none (some u) exec else ([], .ok ())
          match pre.2 with
          | .error e => (step1.1 ++ pre.1, .error e)
          | .ok _ =>
            (step1.1 ++ pre.1 ++ [linkSetCmd dev u], runCmd exec (linkSetCmd dev u))

/-- Function `remove_ip(enode, portlbl, addr, shell)`. -/
def remove_ip (ports : Ports) (portlbl addr : String) (exec : String → String) :
    List String × Except String Unit :=
  if portlbl = "" then ([], .error "AssertionError")
  else if ¬ (ip_interface addr).isSome then ([], .error "ValueError")
  else
    match lookupKey ports portlbl with
    | none => ([], .error "KeyError")
    | some port =>
      let cmd := "ip addr del " ++ addr ++ " dev " ++ port
      ([cmd], runCmd exec cmd)

def routeCmd (version route viaRendered : String) : String :=
  "ip " ++ version ++ " route add " ++ route ++ " via " ++ viaRendered

/-- Function `add_route(enode, route, via, shell)`: the gateway must parse as an
address; the IPv6 variant is chosen if the gateway is IPv6, or (short-
circuit) the route is not `'default'` and parses as an IPv6 network. -/
def add_route (route via : String) (exec : String → String) :
    List String × Except String Unit :=
  match ip_address via with
  | none => ([], .error "ValueError")
  | some g =>
    let cond : Except String Bool :=
      if g.version = 6 then .ok true
      else if route = "default" then .ok false
      else
        match ip_network route with
        | none => .error "ValueError"
        | some n => .ok (decide (n.1.version = 6))
    match cond with
    | .error e => ([], .error e)
    | .ok isv6 =>
      let version := if isv6 then "-6" else "-4"
      ([routeCmd version route g.render], runCmd exec (routeCmd version route g.render))

/-- Function `add_link_type_vlan(enode, portlbl, name, vlan_id, shell)`; also
returns the updated port directory. -/
def add_link_type_vlan (ports : Ports) (portlbl name vlan_id : String)
    (exec : String → String) :
    List String × Except String Unit × Ports :=
  if name = "" then ([], .error "AssertionError", ports)
  else if (lookupKey ports name).isSome then ([], .error "ValueError", ports)
  else if portlbl = "" then ([], .error "AssertionError", ports)
  else if vlan_id = "" then ([], .error "AssertionError", ports)
  else
    match lookupKey ports portlbl with
    | none => ([], .error "KeyError", ports)
    | some port =>
      let cmd := "ip link add link " ++ port ++ " name " ++ name ++
        " type vlan id " ++ vlan_id
      if exec cmd = "" then ([cmd], .ok (), setKey ports name name)
      else ([cmd], .error "AssertionError", ports)

/-- Function `remove_link_type_vlan(enode, name, shell)`. -/
def remove_link_type_vlan (ports : Ports) (name : String)
    (exec : String → String) :
    List String × Except String Unit × Ports :=
  if name = "" then ([], .error "AssertionError", ports)
  else if ¬ (lookupKey ports name).isSome then ([], .error "ValueError", ports)
  else
    let cmd := "ip link del link dev " ++ name
    if exec cmd = "" then ([cmd], .ok (), delKey ports name)
    else ([cmd], .error "AssertionError", ports)

/-- Function `show_interface(enode, dev, shell)`: list the configuration, parse it,
and only when that yields a truthy record also list and merge statistics. -/
def show_interface (exec : String → String) (dev : String) :
    List String × Except String (Option PRec) :=
  if dev = "" then ([], .error "AssertionError")
  else
    let cmd1 := "ip addr list dev " ++ dev
    match _parse_ip_addr_show (exec cmd1) with
    | .error e => ([cmd1], .error e)
    | .ok none => ([cmd1], .ok none)
    | .ok (some firstHalf) =>
      if firstHalf.isEmpty then ([cmd1], .ok none)
      else
        let cmd2 := "ip -s link list dev " ++ dev
        match _parse_ip_stats_link_show (exec cmd2) with
        | none => ([cmd1, cmd2], .error "TypeError")
        | some secondHalf =>
          ([cmd1, cmd2], .ok (some (dictUpdate firstHalf secondHalf)))

/-! ### Theorems -/

theorem strAppend_assoc (a b c : String) : a ++ b ++ c = a ++ (b ++ c) := by
  cases a
  cases b
  cases c
  exact congrArg String.mk (List.append_assoc _ _ _)

/-- The protocol-family flag the specification describes: `-6` iff the
gateway is IPv6 or the route is not the default keyword and is an IPv6
network, else `-4`. -/
def specVersionFlag (route : String) (g : IPAddr) : String :=
  if g.version = 6 ∨ (route ≠ "default" ∧ (ip_network route).map (fun n => n.1.version) = some 6)
  then "-6" else "-4"

theorem add_route_eq (route via : String) (g : IPAddr) (exec : String → String)
    (hv : ip_address via = some g)
    (hr : route = "default" ∨ (ip_network route).isSome) :
    add_route route via exec =
      ([routeCmd (specVersionFlag route g) route g.render],
       runCmd exec (routeCmd (specVersionFlag route g) route g.render)) := by
  by_cases h6 : g.version = 6
  · simp [add_route, hv, h6, specVersionFlag]
  · by_cases hd : route = "default"
    · simp [add_route, hv, h6, hd, specVersionFlag]
    · rcases hr with hr | hr
      · exact absurd hr hd
      · obtain ⟨n, hn⟩ := Option.isSome_iff_exists.mp hr
        by_cases hnv : n.1.version = 6
        · simp [add_route, hv, h6, hd, hn, hnv, specVersionFlag]
        · simp [add_route, hv, h6, hd, hn, hnv, specVersionFlag]

/-- C1: for every gateway string parsing as an IP address and every route
string that is `'default'` or parses as an IP network, `add_route` emits
exactly one command, with the `-6` variant iff the gateway is IPv6 or the
route is a non-default IPv6 network (else `-4`), the route verbatim, and
the gateway re-rendered canonically; the response must be empty. -/
theorem addRouteSelectsVersionAndRendersGateway
    (route via : String) (g : IPAddr) (exec : String → String)
    (hv : ip_address via = some g)
    (hr : route = "default" ∨ (ip_network route).isSome) :
    add_route route via exec =
      ([ "ip " ++ specVersionFlag route g ++ " route add " ++ route ++ " via " ++ g.render],
       runCmd exec ("ip " ++ specVersionFlag route g ++ " route add " ++ route ++ " via " ++ g.render)) := by
  simpa [routeCmd] using add_route_eq route via g exec hv hr

theorem addRouteSelectsVersionAndRendersGateway_witness :
    ip_address "2001:0db8::1" = some (.v6 42540766411282592856903984951653826561) ∧
    add_route "default" "2001:0db8::1" (fun _ => "") =
      (["ip -6 route add default via 2001:db8::1"], .ok ()) := by
  constructor
  · rfl
  · have h := addRouteSelectsVersionAndRendersGateway "default" "2001:0db8::1"
      (.v6 42540766411282592856903984951653826561) (fun _ => "") (by rfl) (Or.inl rfl)
    rw [h]
    rfl

/-- C2: whenever the configuration-list output contains the
`"<device>" does not exist` marker, the configuration parser returns the
undefined result (no record at all), and `show_interface` emits only the
configuration-list command — no statistics-list command — and returns the
undefined result. -/
theorem deviceNotExistShortCircuits (dev : String) (exec : String → String)
    (hdev : dev ≠ "")
    (hmark : (research existRe (exec ("ip addr list dev " ++ dev))).isSome = true) :
    _parse_ip_addr_show (exec ("ip addr list dev " ++ dev)) = .ok none ∧
    show_interface exec dev = (["ip addr list dev " ++ dev], .ok none) := by
  have hparse : _parse_ip_addr_show (exec ("ip addr list dev " ++ dev)) = .ok none := by
    simp [_parse_ip_addr_show, hmark]
  refine ⟨hparse, ?_⟩
  simp [show_interface, hdev, hparse]

theorem deviceNotExistShortCircuits_witness :
    _parse_ip_addr_show "Device \"eth7\" does not exist." = .ok none ∧
    show_interface (fun _ => "Device \"eth7\" does not exist.") "eth7" =
      (["ip addr list dev eth7"], .ok none) := by
  have h := deviceNotExistShortCircuits "eth7"
    (fun _ => "Device \"eth7\" does not exist.") (by decide) (by rfl)
  simpa using h

/-- A well-formed `ip -s link show` output whose receive counter line is
`100 50 0 0 0 2` and transmit counter line `200 60 1 0 0 0`. -/
def statsSampleRaw : String :=
  "8: eth0: <BROADCAST> mtu 1500\n    link/ether\n" ++
  "    RX: bytes packets errors dropped overrun mcast\n" ++
  "    100 50 0 0 0 2\n" ++
  "    TX: bytes packets errors dropped carrier collsns\n" ++
  "    200 60 1 0 0 0\n"

/-- The same output truncated before its transmit section. -/
def statsTruncatedRaw : String :=
  "8: eth0: <BROADCAST> mtu 1500\n    link/ether\n" ++
  "    RX: bytes packets errors dropped overrun mcast\n" ++
  "    100 50 0 0 0 2\n"

set_option maxRecDepth 100000 in
/-- C3: the statistics parser succeeds exactly when the anchored
receive/transmit counter structure matches; on the well-formed sample it
returns the twelve counters, all converted to integers, and on the
truncated sample it returns no partial record. -/
theorem statsParserStructureAndExample :
    (∀ raw : String,
      (_parse_ip_stats_link_show raw).isSome = (rematch statsRe raw).isSome) ∧
    _parse_ip_stats_link_show statsSampleRaw = some
      [("rx_bytes", some (.int 100)), ("rx_packets", some (.int 50)),
       ("rx_errors", some (.int 0)), ("rx_dropped", some (.int 0)),
       ("rx_overrun", some (.int 0)), ("rx_mcast", some (.int 2)),
       ("tx_bytes", some (.int 200)), ("tx_packets", some (.int 60)),
       ("tx_errors", some (.int 1)), ("tx_dropped", some (.int 0)),
       ("tx_carrier", some (.int 0)), ("tx_collisions", some (.int 0))] ∧
    _parse_ip_stats_link_show statsTruncatedRaw = none := by
  refine ⟨?_, by rfl, by rfl⟩
  intro raw
  unfold _parse_ip_stats_link_show
  cases rematch statsRe raw <;> rfl

/-- C6: `interface` emits, in order, one address-assignment command (only
when an address is given, which must be a valid address-with-prefix,
referencing the mapped device and the address verbatim) and one
link-state command (only when the admin state is given, `up` for true and
`down` for false); a `none` parameter contributes no command. -/
theorem interfaceEmitsAddressThenLinkState
    (ports : Ports) (portlbl port : String) (addr : Option String)
    (up : Option Bool) (exec : String → String)
    (hlbl : portlbl ≠ "")
    (hport : lookupKey ports portlbl = some port)
    (haddr : ∀ a, addr = some a → (ip_interface a).isSome = true)
    (hexec1 : ∀ a, addr = some a → exec ("ip addr add " ++ a ++ " dev " ++ port) = "")
    (hexec2 : ∀ u, up = some u →
      exec ("ip link set dev " ++ port ++ " " ++ (if u then "up" else "down")) = "") :
    interface ports portlbl addr up exec =
      ((addr.map (fun a => "ip addr add " ++ a ++ " dev " ++ port)).toList ++
       (up.map (fun u =>
         "ip link set dev " ++ port ++ " " ++ (if u then "up" else "down"))).toList,
       .ok ()) := by
  cases addr with
  | none =>
    cases up with
    | none => simp [interface, hlbl, hport]
    | some u =>
      have h2 := hexec2 u rfl
      simp [interface, hlbl, hport, runCmd, linkSetCmd, h2]
  | some a =>
    have ha := haddr a rfl
    have h1 := hexec1 a rfl
    cases up with
    | none => simp [interface, hlbl, hport, ha, runCmd, addrAddCmd, h1]
    | some u =>
      have h2 := hexec2 u rfl
      simp [interface, hlbl, hport, ha, runCmd, addrAddCmd, linkSetCmd, h1, h2]

theorem interfaceEmitsAddressThenLinkState_witness :
    interface [("p1", "eth1")] "p1" (some "192.168.20.20/24") (some true) (fun _ => "") =
      (["ip addr add 192.168.20.20/24 dev eth1", "ip link set dev eth1 up"], .ok ()) := by
  have h := interfaceEmitsAddressThenLinkState [("p1", "eth1")] "p1" "eth1"
    (some "192.168.20.20/24") (some true) (fun _ => "")
    (by decide) (by rfl)
    (by intro a ha; cases ha; rfl)
    (by intro a _; rfl) (by intro u _; rfl)
  simpa using h

/-- C9: enabling a sub-interface first enables the parent interface via
the recursive `interface` call (carrying only the up flag), whose
link-state command for the parent device precedes the sub-interface's own
link-state command for the synthesized `<parent>.<sub-index>` device. -/
theorem subInterfaceEnablesParentFirst
    (ports : Ports) (portlbl subint port : String) (exec : String → String)
    (hlbl : portlbl ≠ "")
    (hsub : subint ≠ "")
    (hport : lookupKey ports portlbl = some port)
    (hpar : exec ("ip link set dev " ++ port ++ " up") = "") :
    interface ports portlbl none (some true) exec =
      (["ip link set dev " ++ port ++ " up"], .ok ()) ∧
    sub_interface ports portlbl subint none (some true) exec =
      ((interface ports portlbl none (some true) exec).1 ++
        ["ip link set dev " ++ port ++ "." ++ subint ++ " up"],
       runCmd exec ("ip link set dev " ++ port ++ "." ++ subint ++ " up")) := by
  have hpar1 : exec ("ip link set dev " ++ (port ++ " up")) = "" := by
    simpa [strAppend_assoc] using hpar
  have hint : interface ports portlbl none (some true) exec =
      (["ip link set dev " ++ port ++ " up"], .ok ()) := by
    simp [interface, hlbl, hport, runCmd, linkSetCmd, hpar1, strAppend_assoc]
  refine ⟨hint, ?_⟩
  simp [sub_interface, hlbl, hsub, hport, hint, linkSetCmd, strAppend_assoc]

theorem subInterfaceEnablesParentFirst_witness :
    sub_interface [("p1", "eth1")] "p1" "10" none (some true) (fun _ => "") =
      (["ip link set dev eth1 up", "ip link set dev eth1.10 up"], .ok ()) := by
  have h := subInterfaceEnablesParentFirst [("p1", "eth1")] "p1" "10" "eth1"
    (fun _ => "") (by decide) (by decide) (by rfl) (by rfl)
  rw [h.2, h.1]
  rfl

/-- C7: adding a VLAN link under an already-registered name raises before
any command is emitted; a successful add emits the creation command and
registers the name.  Removing under an unregistered name raises before
any command; a successful remove emits the deletion command and deletes
the name from the directory. -/
theorem vlanDirectoryDiscipline
    (ports : Ports) (portlbl name vlan_id port : String) (exec : String → String)
    (hname : name ≠ "") :
    ((lookupKey ports name).isSome = true →
      add_link_type_vlan ports portlbl name vlan_id exec = ([], .error "ValueError", ports)) ∧
    (lookupKey ports name = none → portlbl ≠ "" → vlan_id ≠ "" →
      lookupKey ports portlbl = some port →
      exec ("ip link add link " ++ port ++ " name " ++ name ++ " type vlan id " ++ vlan_id) = "" →
      add_link_type_vlan ports portlbl name vlan_id exec =
        (["ip link add link " ++ port ++ " name " ++ name ++ " type vlan id " ++ vlan_id],
         .ok (), setKey ports name name) ∧
      lookupKey (setKey ports name name) name = some name) ∧
    (lookupKey ports name = none →
      remove_link_type_vlan ports name exec = ([], .error "ValueError", ports)) ∧
    ((lookupKey ports name).isSome = true →
      exec ("ip link del link dev " ++ name) = "" →
      remove_link_type_vlan ports name exec =
        (["ip link del link dev " ++ name], .ok (), delKey ports name) ∧
      lookupKey (delKey ports name) name = none) := by
  refine ⟨?_, ?_, ?_, ?_⟩
  · intro hmem
    simp [add_link_type_vlan, hname, hmem]
  · intro hmem hlbl hvid hport hresp
    refine ⟨?_, lookupKey_setKey_self _ _ _⟩
    simp [add_link_type_vlan, hname, hmem, hlbl, hvid, hport, hresp]
  · intro hmem
    simp [remove_link_type_vlan, hname, hmem]
  · intro hmem hresp
    refine ⟨?_, lookupKey_delKey_self _ _⟩
    simp [remove_link_type_vlan, hname, hmem, hresp]

theorem vlanDirectoryDiscipline_witness :
    add_link_type_vlan [("p1", "eth1")] "p1" "eth1.100" "100" (fun _ => "") =
      (["ip link add link eth1 name eth1.100 type vlan id 100"], .ok (),
       [("p1", "eth1"), ("eth1.100", "eth1.100")]) ∧
    remove_link_type_vlan [("p1", "eth1"), ("eth1.100", "eth1.100")] "eth1.100" (fun _ => "") =
      (["ip link del link dev eth1.100"], .ok (), [("p1", "eth1")]) := by
  have h1 := (vlanDirectoryDiscipline [("p1", "eth1")] "p1" "eth1.100" "100" "eth1"
    (fun _ => "") (by decide)).2.1 (by rfl) (by decide) (by decide) (by rfl) (by rfl)
  have h2 := (vlanDirectoryDiscipline [("p1", "eth1"), ("eth1.100", "eth1.100")]
    "p1" "eth1.100" "100" "eth1" (fun _ => "") (by decide)).2.2.2 (by rfl) (by rfl)
  refine ⟨?_, ?_⟩
  · rw [h1.1]
    rfl
  · rw [h2.1]
    rfl

/-- C10: a non-empty executor response to the VLAN creation or deletion
command raises the assertion failure and leaves the port directory
exactly as it was — the name is not registered / not removed. -/
theorem vlanFailureLeavesDirectoryUnchanged
    (ports : Ports) (portlbl name vlan_id port : String) (exec : String → String)
    (hname : name ≠ "") :
    (lookupKey ports name = none → portlbl ≠ "" → vlan_id ≠ "" →
      lookupKey ports portlbl = some port →
      exec ("ip link add link " ++ port ++ " name " ++ name ++ " type vlan id " ++ vlan_id) ≠ "" →
      add_link_type_vlan ports portlbl name vlan_id exec =
        (["ip link add link " ++ port ++ " name " ++ name ++ " type vlan id " ++ vlan_id],
         .error "AssertionError", ports)) ∧
    ((lookupKey ports name).isSome = true →
      exec ("ip link del link dev " ++ name) ≠ "" →
      remove_link_type_vlan ports name exec =
        (["ip link del link dev " ++ name], .error "AssertionError", ports)) := by
  refine ⟨?_, ?_⟩
  · intro hmem hlbl hvid hport hresp
    simp [add_link_type_vlan, hname, hmem, hlbl, hvid, hport, hresp]
  · intro hmem hresp
    simp [remove_link_type_vlan, hname, hmem, hresp]

theorem vlanFailureLeavesDirectoryUnchanged_witness :
    add_link_type_vlan [("p1", "eth1")] "p1" "eth1.100" "100" (fun _ => "RTNETLINK answers: whatever") =
      (["ip link add link eth1 name eth1.100 type vlan id 100"],
       .error "AssertionError", [("p1", "eth1")]) ∧
    remove_link_type_vlan [("eth1.100", "eth1.100")] "eth1.100" (fun _ => "Cannot find device") =
      (["ip link del link dev eth1.100"], .error "AssertionError", [("eth1.100", "eth1.100")]) := by
  have h1 := (vlanFailureLeavesDirectoryUnchanged [("p1", "eth1")] "p1" "eth1.100" "100" "eth1"
    (fun _ => "RTNETLINK answers: whatever") (by decide)).1 (by rfl) (by decide) (by decide)
    (by rfl) (by decide)
  have h2 := (vlanFailureLeavesDirectoryUnchanged [("eth1.100", "eth1.100")] "p1" "eth1.100" "100"
    "eth1" (fun _ => "Cannot find device") (by decide)).2 (by rfl) (by decide)
  refine ⟨?_, ?_⟩
  · rw [h1]
    rfl
  · rw [h2]
    rfl

/-- C8: for every write operation — configure interface, configure
sub-interface, remove address, add route, add VLAN link, remove VLAN
link — the emitted command is issued exactly once, an empty executor
response yields success, and a non-empty response yields the fatal
assertion-style failure (no retry). -/
theorem writeOperationsAssertEmptyResponse
    (ports : Ports) (portlbl subint a route via nameA nameR vlan_id port : String)
    (g : IPAddr) (exec : String → String)
    (hlbl : portlbl ≠ "")
    (hsub : subint ≠ "")
    (hport : lookupKey ports portlbl = some port)
    (ha : (ip_interface a).isSome = true)
    (hvia : ip_address via = some g)
    (hroute : route = "default" ∨ (ip_network route).isSome)
    (hnameA : nameA ≠ "")
    (hnameAmem : lookupKey ports nameA = none)
    (hnameR : nameR ≠ "")
    (hnameRmem : (lookupKey ports nameR).isSome = true)
    (hvid : vlan_id ≠ "") :
    interface ports portlbl (some a) none exec =
      (["ip addr add " ++ a ++ " dev " ++ port],
       if exec ("ip addr add " ++ a ++ " dev " ++ port) = ""
       then .ok () else .error "AssertionError") ∧
    sub_interface ports portlbl subint (some a) none exec =
      (["ip addr add " ++ a ++ " dev " ++ port ++ "." ++ subint],
       if exec ("ip addr add " ++ a ++ " dev " ++ port ++ "." ++ subint) = ""
       then .ok () else .error "AssertionError") ∧
    remove_ip ports portlbl a exec =
      (["ip addr del " ++ a ++ " dev " ++ port],
       if exec ("ip addr del " ++ a ++ " dev " ++ port) = ""
       then .ok () else .error "AssertionError") ∧
    add_route route via exec =
      ([routeCmd (specVersionFlag route g) route g.render],
       if exec (routeCmd (specVersionFlag route g) route g.render) = ""
       then .ok () else .error "AssertionError") ∧
    (add_link_type_vlan ports portlbl nameA vlan_id exec).1 =
      ["ip link add link " ++ port ++ " name " ++ nameA ++ " type vlan id " ++ vlan_id] ∧
    (add_link_type_vlan ports portlbl nameA vlan_id exec).2.1 =
      (if exec ("ip link add link " ++ port ++ " name " ++ nameA ++ " type vlan id " ++ vlan_id) = ""
       then .ok () else .error "AssertionError") ∧
    (remove_link_type_vlan ports nameR exec).1 = ["ip link del link dev " ++ nameR] ∧
    (remove_link_type_vlan ports nameR exec).2.1 =
      (if exec ("ip link del link dev " ++ nameR) = ""
       then .ok () else .error "AssertionError") := by
  refine ⟨?_, ?_, ?_, ?_, ?_, ?_, ?_, ?_⟩
  · by_cases hr : exec ("ip addr add " ++ (a ++ (" dev " ++ port))) = "" <;>
      simp [interface, hlbl, hport, ha, runCmd, addrAddCmd, strAppend_assoc, hr]
  · by_cases hr : exec ("ip addr add " ++ (a ++ (" dev " ++ (port ++ ("." ++ subint))))) = "" <;>
      simp [sub_interface, hlbl, hsub, hport, ha, runCmd, addrAddCmd, strAppend_assoc, hr]
  · by_cases hr : exec ("ip addr del " ++ (a ++ (" dev " ++ port))) = "" <;>
      simp [remove_ip, hlbl, hport, ha, runCmd, strAppend_assoc, hr]
  · rw [add_route_eq route via g exec hvia hroute]
    simp [runCmd]
  · by_cases hr : exec ("ip link add link " ++ (port ++ (" name " ++ (nameA ++ (" type vlan id " ++ vlan_id))))) = "" <;>
      simp [add_link_type_vlan, hnameA, hnameAmem, hlbl, hvid, hport, strAppend_assoc, hr]
  · by_cases hr : exec ("ip link add link " ++ (port ++ (" name " ++ (nameA ++ (" type vlan id " ++ vlan_id))))) = "" <;>
      simp [add_link_type_vlan, hnameA, hnameAmem, hlbl, hvid, hport, strAppend_assoc, hr]
  · by_cases hr : exec ("ip link del link dev " ++ nameR) = "" <;>
      simp [remove_link_type_vlan, hnameR, hnameRmem, hr]
  · by_cases hr : exec ("ip link del link dev " ++ nameR) = "" <;>
      simp [remove_link_type_vlan, hnameR, hnameRmem, hr]

theorem writeOperationsAssertEmptyResponse_witness :
    interface [("p1", "eth1"), ("vx", "vx")] "p1" (some "10.0.0.1/24") none (fun _ => "") =
      (["ip addr add 10.0.0.1/24 dev eth1"], .ok ()) ∧
    remove_ip [("p1", "eth1"), ("vx", "vx")] "p1" "10.0.0.1/24" (fun _ => "garbage") =
      (["ip addr del 10.0.0.1/24 dev eth1"], .error "AssertionError") := by
  have h := writeOperationsAssertEmptyResponse [("p1", "eth1"), ("vx", "vx")]
    "p1" "7" "10.0.0.1/24" "10.0.0.0/24" "10.0.0.254" "v9" "vx" "5" "eth1"
    (.v4 167772414) (fun _ => "")
    (by decide) (by decide) (by rfl) (by rfl) (by rfl)
    (Or.inr (by rfl)) (by decide) (by rfl) (by decide) (by rfl) (by decide)
  have h2 := writeOperationsAssertEmptyResponse [("p1", "eth1"), ("vx", "vx")]
    "p1" "7" "10.0.0.1/24" "10.0.0.0/24" "10.0.0.254" "v9" "vx" "5" "eth1"
    (.v4 167772414) (fun _ => "garbage")
    (by decide) (by decide) (by rfl) (by rfl) (by rfl)
    (Or.inr (by rfl)) (by decide) (by rfl) (by decide) (by rfl) (by decide)
  refine ⟨?_, ?_⟩
  · rw [h.1]
    rfl
  · rw [h2.2.2.1]
    rfl

theorem lookupKey_groupdictOf (names : List String) (caps : Caps) (k : String) :
    lookupKey (groupdictOf names caps) k =
      if k ∈ names then some (lookupKey caps k) else none := by
  induction names with
  | nil => simp [groupdictOf, lookupKey]
  | cons n t ih =>
    by_cases hk : n = k
    · subst hk
      simp [groupdictOf, lookupKey]
    · have hk2 : ¬ (k = n) := fun h => hk h.symm
      have hcons : groupdictOf (n :: t) caps = (n, lookupKey caps n) :: groupdictOf t caps := rfl
      rw [hcons]
      simp [lookupKey, hk, hk2, ih]

theorem lookupKey_cleanup (d : List (String × Option String)) (k : String) :
    lookupKey (cleanup d) k = (lookupKey d k).map (Option.map strToVal) :=
  lookupKey_map_val _ d k

/-- A configuration-list output with an IPv4 `inet` block and no `inet6`
block. -/
def cfgSampleRaw : String :=
  "2: eth0: <UP> mtu 1500 state UP link/ether 00:50:56:01:2e:f6\n inet 20.1.1.2/24\n"

/-- C4: on configuration output without the not-exist marker, with the
mandatory group present, whose IPv4 block captures a non-numeric address
and a digit prefix, and with no `inet6` block, the parser's record binds
`inet` to the address as text and `inet_mask` to the prefix as an
integer, and contains no `inet6`/`inet6_mask` keys at all. -/
theorem parserMergesInetAndOmitsInet6
    (raw : String) (p0 p1 : Nat) (caps0 caps1 : Caps) (a m : String)
    (hnoexist : research existRe raw = none)
    (hcfg : research cfgRe raw = some (p0, caps0))
    (hinet : research inetRe raw = some (p1, caps1))
    (ha : lookupKey caps1 "inet" = some a)
    (hm : lookupKey caps1 "inet_mask" = some m)
    (hadig : isdigitStr a = false)
    (hmdig : isdigitStr m = true)
    (hno6 : research inet6Re raw = none) :
    ∃ rec : PRec, _parse_ip_addr_show raw = .ok (some rec) ∧
      lookupKey rec "inet" = some (some (.str a)) ∧
      lookupKey rec "inet_mask" = some (some (.int (digitsToNat m.data))) ∧
      lookupKey rec "inet6" = none ∧
      lookupKey rec "inet6_mask" = none := by
  have hupd : dictUpdate (groupdictOf cfgNames caps0) (groupdictOf inetNames caps1) =
      setKey (setKey (groupdictOf cfgNames caps0) "inet" (lookupKey caps1 "inet"))
        "inet_mask" (lookupKey caps1 "inet_mask") := rfl
  refine ⟨cleanup (dictUpdate (groupdictOf cfgNames caps0) (groupdictOf inetNames caps1)),
    ?_, ?_, ?_, ?_, ?_⟩
  · simp [_parse_ip_addr_show, hnoexist, hcfg, hinet, hno6]
  · rw [lookupKey_cleanup, hupd,
      lookupKey_setKey_ne _ _ _ _ (by decide), lookupKey_setKey_self, ha]
    simp [strToVal, hadig]
  · rw [lookupKey_cleanup, hupd, lookupKey_setKey_self, hm]
    simp [strToVal, hmdig]
  · rw [lookupKey_cleanup, hupd,
      lookupKey_setKey_ne _ _ _ _ (by decide), lookupKey_setKey_ne _ _ _ _ (by decide),
      lookupKey_groupdictOf, if_neg (by decide)]
    rfl
  · rw [lookupKey_cleanup, hupd,
      lookupKey_setKey_ne _ _ _ _ (by decide), lookupKey_setKey_ne _ _ _ _ (by decide),
      lookupKey_groupdictOf, if_neg (by decide)]
    rfl

set_option maxRecDepth 400000 in
theorem parserMergesInetAndOmitsInet6_witness :
    ∃ rec : PRec, _parse_ip_addr_show cfgSampleRaw = .ok (some rec) ∧
      lookupKey rec "inet" = some (some (.str "20.1.1.2")) ∧
      lookupKey rec "inet_mask" = some (some (.int (digitsToNat "24".data))) ∧
      lookupKey rec "inet6" = none ∧
      lookupKey rec "inet6_mask" = none :=
  parserMergesInetAndOmitsInet6 cfgSampleRaw 0 62
    [("os_index", "2"), ("dev", "eth0"), ("falgs_str", "UP"), ("mtu", "1500"),
     ("state", "UP"), ("link_type", "ether"), ("mac_address", "00:50:56:01:2e:f6")]
    [("inet", "20.1.1.2"), ("inet_mask", "24")] "20.1.1.2" "24"
    (by rfl) (by rfl) (by rfl) (by rfl) (by rfl) (by rfl) (by rfl) (by rfl)

theorem researchGo_spec (re : RE) (input : List Char) :
    ∀ (t p q : Nat) (caps : Caps),
      researchGo re input p t = some (q, caps) →
      p ≤ q ∧ q + 1 ≤ p + t ∧ ∃ m : MRes, reMatchAt re input q = some m := by
  intro t
  induction t with
  | zero =>
    intro p q caps h
    simp [researchGo] at h
  | succ t ih =>
    intro p q caps h
    rw [researchGo] at h
    split at h
    · next m hm =>
        injection h with h1
        have hq : p = q := congrArg Prod.fst h1
        subst hq
        exact ⟨le_refl p, by omega, m, hm⟩
    · next hm =>
        obtain ⟨h1, h2, m, hm'⟩ := ih (p + 1) q caps h
        exact ⟨by omega, by omega, m, hm'⟩

theorem reRun_seq_lookbehind (f : Nat) (l : List Char) (B : RE)
    (before rest : List Char) (caps : Caps)
    (k : List Char → List Char → Caps → Option MRes) (m : MRes)
    (h : reRun f (.seq (.lookbehind l) B) before rest caps k = some m) :
    before.take l.length = l.reverse := by
  match f with
  | 0 => simp [reRun] at h
  | 1 => simp [reRun] at h
  | f + 2 =>
    by_cases hc : before.take l.length = l.reverse
    · exact hc
    · simp only [reRun] at h
      rw [if_neg hc] at h
      exact absurd h (by simp)

theorem research_inet6_position (raw : String) (q : Nat) (caps : Caps)
    (h : research inet6Re raw = some (q, caps)) :
    6 ≤ q ∧ (raw.data.drop (q - 6)).take 6 = "inet6 ".data := by
  obtain ⟨hpq, hqle, m, hm⟩ :=
    researchGo_spec inet6Re raw.data (raw.data.length + 1) 0 q caps h
  have hqlen : q ≤ raw.data.length := by omega
  have hseq : inet6Re = .seq (.lookbehind "inet6 ".data)
      (.seq (.grp "inet6" (plusG (.cls (fun c => !(c = '/')))))
        (.seq (chr '/')
          (.seq (.grp "inet6_mask" (.seq (.cls pyDigit) (.opt false (.cls pyDigit)))) .eps))) := rfl
  rw [hseq] at hm
  simp only [reMatchAt] at hm
  have hlb := reRun_seq_lookbehind _ _ _ _ _ _ _ _ hm
  have hyslen : (raw.data.take q).length = q := by
    rw [List.length_take]
    omega
  have hlen6 : ("inet6 ".data).length = 6 := rfl
  rw [hlen6] at hlb
  have h6q : 6 ≤ q := by
    have := congrArg List.length hlb
    simp [List.length_take, List.length_reverse, hyslen] at this
    omega
  refine ⟨h6q, ?_⟩
  have hrev := congrArg List.reverse hlb
  rw [List.reverse_take, List.reverse_reverse, List.length_reverse, List.reverse_reverse,
    hyslen] at hrev
  rw [List.drop_take] at hrev
  have h66 : q - (q - 6) = 6 := by omega
  rw [h66] at hrev
  exact hrev

/-- A configuration-list output with both an `inet` and an `inet6` block. -/
def cfg6SampleRaw : String :=
  "2: eth0: <UP> mtu 1500 state UP link/ether 00:50:56:01:2e:f6\n" ++
  " inet 20.1.1.2/24\n inet6 fe80::1/64\n"

/-- C5: the IPv6 search only ever matches at a position immediately
preceded by the six characters `inet6 ` — never after the bare `inet `
marker — and when an `inet6` block is present its address and prefix are
merged into the parser's record. -/
theorem inet6MatchesOnlyAfterInet6Marker :
    (∀ (raw : String) (q : Nat) (caps : Caps),
      research inet6Re raw = some (q, caps) →
      6 ≤ q ∧ (raw.data.drop (q - 6)).take 6 = "inet6 ".data) ∧
    (∀ (raw : String) (p0 p2 : Nat) (caps0 caps2 : Caps) (a6 m6 : String),
      research existRe raw = none →
      research cfgRe raw = some (p0, caps0) →
      research inet6Re raw = some (p2, caps2) →
      lookupKey caps2 "inet6" = some a6 →
      lookupKey caps2 "inet6_mask" = some m6 →
      isdigitStr a6 = false → isdigitStr m6 = true →
      ∃ rec : PRec, _parse_ip_addr_show raw = .ok (some rec) ∧
        lookupKey rec "inet6" = some (some (.str a6)) ∧
        lookupKey rec "inet6_mask" = some (some (.int (digitsToNat m6.data)))) := by
  refine ⟨research_inet6_position, ?_⟩
  intro raw p0 p2 caps0 caps2 a6 m6 hnoexist hcfg h6 ha6 hm6 hadig hmdig
  cases hinet : research inetRe raw with
  | none =>
    have hupd : dictUpdate (groupdictOf cfgNames caps0) (groupdictOf inet6Names caps2) =
        setKey (setKey (groupdictOf cfgNames caps0) "inet6" (lookupKey caps2 "inet6"))
          "inet6_mask" (lookupKey caps2 "inet6_mask") := rfl
    refine ⟨cleanup (dictUpdate (groupdictOf cfgNames caps0) (groupdictOf inet6Names caps2)),
      ?_, ?_, ?_⟩
    · simp [_parse_ip_addr_show, hnoexist, hcfg, hinet, h6]
    · rw [lookupKey_cleanup, hupd,
        lookupKey_setKey_ne _ _ _ _ (by decide), lookupKey_setKey_self, ha6]
      simp [strToVal, hadig]
    · rw [lookupKey_cleanup, hupd, lookupKey_setKey_self, hm6]
      simp [strToVal, hmdig]
  | some pc1 =>
    obtain ⟨p1, caps1⟩ := pc1
    have hupd : dictUpdate
        (dictUpdate (groupdictOf cfgNames caps0) (groupdictOf inetNames caps1))
        (groupdictOf inet6Names caps2) =
        setKey (setKey
          (dictUpdate (groupdictOf cfgNames caps0) (groupdictOf inetNames caps1))
          "inet6" (lookupKey caps2 "inet6"))
          "inet6_mask" (lookupKey caps2 "inet6_mask") := rfl
    refine ⟨cleanup (dictUpdate
        (dictUpdate (groupdictOf cfgNames caps0) (groupdictOf inetNames caps1))
        (groupdictOf inet6Names caps2)), ?_, ?_, ?_⟩
    · simp [_parse_ip_addr_show, hnoexist, hcfg, hinet, h6]
    · rw [lookupKey_cleanup, hupd,
        lookupKey_setKey_ne _ _ _ _ (by decide), lookupKey_setKey_self, ha6]
      simp [strToVal, hadig]
    · rw [lookupKey_cleanup, hupd, lookupKey_setKey_self, hm6]
      simp [strToVal, hmdig]

set_option maxRecDepth 400000 in
theorem inet6MatchesOnlyAfterInet6Marker_witness :
    (6 ≤ 7 ∧ ((" inet6 fe80::1/64" : String).data.drop (7 - 6)).take 6 = "inet6 ".data) ∧
    (∃ rec : PRec, _parse_ip_addr_show cfg6SampleRaw = .ok (some rec) ∧
      lookupKey rec "inet6" = some (some (.str "fe80::1")) ∧
      lookupKey rec "inet6_mask" = some (some (.int (digitsToNat "64".data)))) := by
  constructor
  · exact inet6MatchesOnlyAfterInet6Marker.1 " inet6 fe80::1/64" 7
      [("inet6", "fe80::1"), ("inet6_mask", "64")] (by rfl)
  · exact inet6MatchesOnlyAfterInet6Marker.2 cfg6SampleRaw 0 86
      [("os_index", "2"), ("dev", "eth0"), ("falgs_str", "UP"), ("mtu", "1500"),
       ("state", "UP"), ("link_type", "ether"), ("mac_address", "00:50:56:01:2e:f6")]
      [("inet6", "fe80::1"), ("inet6_mask", "64")] "fe80::1" "64"
      (by rfl) (by rfl) (by rfl) (by rfl) (by rfl) (by rfl) (by rfl)

end TopologyLibIp
